import Mathlib

/-!
Verification of the E2B sandbox lifecycle controller
(`src/integrations/e2b_sandbox_manager.py`).

The Python module is embedded shallowly:

* `SandboxResult` mirrors the `@dataclass SandboxResult`.
* A sandbox handle is opaque; we model it as a `Nat`.
* The manager's mutable state (`api_key`, `max_sandboxes`,
  `_active_sandboxes` dict, `_semaphore` available-slot count) is the
  record `ManagerState`; the Python dict is an insertion-ordered
  association list with `dictLookup` / `dictInsert` / `dictErase`
  mirroring `in` / `d[k] = v` / `del d[k]`.
* Remote interactions (sandbox creation, env-var setup, process run,
  kill) are non-deterministic at the Python level; each call is
  parameterised by an outcome record (`CreateOutcome`, `WaitOutcome`,
  `killOk`) describing what the remote side did, and the embedding
  computes exactly what the Python code does for that outcome.
* Python exceptions are `Except` values carrying the state they
  propagate through (Python exceptions do not roll back state);
  `try/except` clauses are `match`es on those values.
-/

namespace E2B

/-- The `SandboxResult` dataclass. `execution_time` is wall-clock
seconds (a float in Python, a `Nat` here), `exit_code` an `Int` so that
the sentinel `-1` is representable. -/
structure SandboxResult where
  success : Bool
  output : String
  error : Option String
  execution_time : Nat
  memory_used : Nat
  exit_code : Int
deriving Repr, DecidableEq

/-- Opaque remote sandbox handle (`e2b.Sandbox`). -/
abbrev Sandbox := Nat

/-- Python-dict lookup (`d.get(k)` / `k in d`). -/
def dictLookup (d : List (String × Sandbox)) (k : String) : Option Sandbox :=
  match d with
  | [] => none
  | (k', v) :: rest => if k' = k then some v else dictLookup rest k

/-- Python-dict assignment `d[k] = v`: update in place when the key is
present, else append (insertion order preserved). -/
def dictInsert (d : List (String × Sandbox)) (k : String) (v : Sandbox) :
    List (String × Sandbox) :=
  match d with
  | [] => [(k, v)]
  | (k', v') :: rest =>
      if k' = k then (k, v) :: rest else (k', v') :: dictInsert rest k v

/-- Python-dict deletion `del d[k]`. -/
def dictErase (d : List (String × Sandbox)) (k : String) :
    List (String × Sandbox) :=
  d.filter (fun p => p.1 ≠ k)

/-- Keys of the dict, in insertion order (`list(d.keys())`). -/
def dictKeys (d : List (String × Sandbox)) : List String :=
  d.map (fun p => p.1)

/-- Mutable state of one `E2BSandboxManager` instance:
`api_key`, `max_sandboxes`, `_active_sandboxes`, and the number of
currently available slots of `_semaphore`. -/
structure ManagerState where
  api_key : Option String
  max_sandboxes : Nat
  active_sandboxes : List (String × Sandbox)
  semaphore : Nat
deriving Repr, DecidableEq

/-- `E2BSandboxManager.__init__(api_key, max_sandboxes)`: empty
registry, semaphore with `max_sandboxes` available slots. -/
def managerInit (api_key : Option String) (max_sandboxes : Nat) : ManagerState :=
  { api_key := api_key
    max_sandboxes := max_sandboxes
    active_sandboxes := []
    semaphore := max_sandboxes }

/-- Line 61: `sandbox_id = f"research_{asyncio.current_task().get_name()}"`.
The id is a pure function of the current task's name. -/
def sandboxId (taskName : String) : String := "research_" ++ taskName

/-- `_get_memory_usage`: `int(result.stdout.strip()) * 1024` when the
`ps aux` pipeline and the parse succeed (`memSample = some kb`), `0` on
any exception (`memSample = none`). -/
def get_memory_usage (memSample : Option Nat) : Nat :=
  match memSample with
  | some kb => kb * 1024
  | none => 0

/-- What the remote side did while `_run_code` ran:
either some awaited call inside the `try` raised (`raises`, caught by
`_run_code`'s own `except`), or the process completed with an exit
status, captured streams (`None` when nothing was captured), a memory
sample and an elapsed time. -/
inductive RunOutcome where
  | raises (msg : String) (elapsed : Nat)
  | completes (exitCode : Int) (stdout : Option String) (stderr : Option String)
      (memSample : Option Nat) (elapsed : Nat)
deriving Repr, DecidableEq

/-- `_run_code` (lines 124–162). It catches every exception internally,
so it always returns a `SandboxResult`. -/
def run_code (o : RunOutcome) : SandboxResult :=
  match o with
  | .raises msg elapsed =>
      { success := false, output := "", error := some msg
        execution_time := elapsed, memory_used := 0, exit_code := -1 }
  | .completes exitCode stdout stderr memSample elapsed =>
      { success := exitCode == 0
        output := stdout.getD ""                -- `process.stdout or ""`
        error := if exitCode ≠ 0 then stderr else none
        execution_time := elapsed
        memory_used := get_memory_usage memSample
        exit_code := exitCode }

/-- What the remote side did during `_create_sandbox`:
`Sandbox.create` itself raised; or it succeeded but one of the env-var
`process.start` calls raised (a live sandbox exists but registration at
line 120 is never reached); or everything succeeded. -/
inductive CreateOutcome where
  | createFails (msg : String)
  | envSetupFails (sb : Sandbox) (msg : String)
  | ok (sb : Sandbox)
deriving Repr, DecidableEq

/-- Is this creation outcome a failure (an exception escaping
`_create_sandbox`)? -/
def CreateOutcome.isFailure : CreateOutcome → Bool
  | .createFails _ => true
  | .envSetupFails _ _ => true
  | .ok _ => false

/-- `_create_sandbox` (lines 103–122): on success the handle is stored
in `_active_sandboxes` under `sandbox_id`; an exception propagates with
the registry untouched (registration is the last effect). -/
def create_sandbox (st : ManagerState) (id : String) (o : CreateOutcome) :
    Except (String × ManagerState) (Sandbox × ManagerState) :=
  match o with
  | .createFails msg => .error (msg, st)
  | .envSetupFails _ msg => .error (msg, st)
  | .ok sb =>
      .ok (sb, { st with active_sandboxes := dictInsert st.active_sandboxes id sb })

/-- Outcome of `asyncio.wait_for(self._run_code(...), timeout)`:
a result in time, or `asyncio.TimeoutError`. -/
inductive WaitOutcome where
  | inTime (ro : RunOutcome)
  | timesOut
deriving Repr, DecidableEq

/-- The remote-world parameters of one `execute_research_query` call. -/
structure ExecEnv where
  co : CreateOutcome
  wo : WaitOutcome
  killOk : Bool
deriving Repr, DecidableEq

/-- The Python exceptions that can reach the `except` clauses of
`execute_research_query`: `asyncio.TimeoutError` or some other
`Exception` with a message. -/
inductive PyExc where
  | timeoutError
  | exc (msg : String)
deriving Repr, DecidableEq

/-- `await sandbox.kill()` inside `_cleanup_sandbox`: succeeds or
raises. -/
def kill_outcome (killOk : Bool) : Except String Unit :=
  if killOk then .ok () else .error "kill failed"

/-- `_cleanup_sandbox` (lines 174–183). Note the exact source shape:
`del self._active_sandboxes[sandbox_id]` sits inside the `try`, after
`await sandbox.kill()`; when `kill` raises, the `except` clause only
logs, so the registry entry is NOT removed. -/
def cleanup_sandbox (st : ManagerState) (id : String) (killOk : Bool) :
    ManagerState :=
  match dictLookup st.active_sandboxes id with
  | some _ =>
      match kill_outcome killOk with
      | .ok _ => { st with active_sandboxes := dictErase st.active_sandboxes id }
      | .error _ => st
  | none => st

/-- `_cleanup_sandbox` with the exception channel kept visible: both
branches of the inner `try/except` end without re-raising, so the
function always returns `ok`. -/
def cleanup_sandbox_exc (st : ManagerState) (id : String) (killOk : Bool) :
    Except String ManagerState :=
  match dictLookup st.active_sandboxes id with
  | some _ =>
      match kill_outcome killOk with
      | .ok _ =>
          .ok { st with active_sandboxes := dictErase st.active_sandboxes id }
      | .error _ => .ok st
  | none => .ok st

/-- The `try:` block of `execute_research_query` (lines 63–75): create
the sandbox, then wait for `_run_code` under the deadline. An error
value carries the manager state at the moment the exception propagates. -/
def exec_try (st : ManagerState) (id : String) (env : ExecEnv) :
    Except (PyExc × ManagerState) (SandboxResult × ManagerState) :=
  match create_sandbox st id env.co with
  | .error (msg, st1) => .error (.exc msg, st1)
  | .ok (_, st1) =>
      match env.wo with
      | .timesOut => .error (.timeoutError, st1)
      | .inTime ro => .ok (run_code ro, st1)

/-- The `except asyncio.TimeoutError` result (lines 79–86). -/
def timeoutResult (timeout : Nat) : SandboxResult :=
  { success := false
    output := ""
    error := some ("Execution timeout after " ++ toString timeout ++ "s")
    execution_time := timeout
    memory_used := 0
    exit_code := -1 }

/-- The `except Exception as e` result (lines 90–97). -/
def excResult (msg : String) : SandboxResult :=
  { success := false, output := "", error := some msg
    execution_time := 0, memory_used := 0, exit_code := -1 }

/-- The two `except` clauses of `execute_research_query` (lines 77–97)
applied to the outcome of the `try` block: `TimeoutError` and every
other `Exception` are converted to results; anything else would pass
through (there is nothing else in `PyExc`). -/
def handleExc (timeout : Nat) :
    Except (PyExc × ManagerState) (SandboxResult × ManagerState) →
    Except (PyExc × ManagerState) (SandboxResult × ManagerState)
  | .ok p => .ok p
  | .error (.timeoutError, s) => .ok (timeoutResult timeout, s)
  | .error (.exc msg, s) => .ok (excResult msg, s)

/-- `execute_research_query` (lines 41–101) with the exception channel
kept visible: acquire a semaphore slot, run the `try/except` body, then
(`finally`) always call `_cleanup_sandbox`, and release the slot when
the `async with` block exits — also on the (never-taken) propagating
path. -/
def execute_research_query_exc (st : ManagerState) (taskName : String)
    (timeout : Nat) (env : ExecEnv) :
    Except (PyExc × ManagerState) (SandboxResult × ManagerState) :=
  let id := sandboxId taskName
  let stAcq := { st with semaphore := st.semaphore - 1 }
  match handleExc timeout (exec_try stAcq id env) with
  | .ok (r, s) =>
      let s2 := cleanup_sandbox s id env.killOk
      .ok (r, { s2 with semaphore := s2.semaphore + 1 })
  | .error (e, s) =>
      let s2 := cleanup_sandbox s id env.killOk
      .error (e, { s2 with semaphore := s2.semaphore + 1 })

/-- `execute_research_query` as the total function the Python coroutine
actually is: the propagating branch is dead (see the C4 theorem). -/
def execute_research_query (st : ManagerState) (taskName : String)
    (timeout : Nat) (env : ExecEnv) : SandboxResult × ManagerState :=
  match execute_research_query_exc st taskName timeout env with
  | .ok p => p
  | .error (_, s) =>
      ({ success := false, output := "", error := some "uncaught exception"
         execution_time := 0, memory_used := 0, exit_code := -1 }, s)

/-- `cleanup_all` (lines 185–189): iterate a snapshot
(`list(self._active_sandboxes.keys())`) of the registry keys and clean
each session up individually. `killOk` says, per session id, whether the
remote kill succeeds. -/
def cleanup_all (st : ManagerState) (killOk : String → Bool) : ManagerState :=
  (dictKeys st.active_sandboxes).foldl
    (fun s id => cleanup_sandbox s id (killOk id)) st

/-- `cleanup_all` with the exception channel kept visible. -/
def cleanup_all_exc (st : ManagerState) (killOk : String → Bool) :
    Except String ManagerState :=
  (dictKeys st.active_sandboxes).foldlM
    (fun s id => cleanup_sandbox_exc s id (killOk id)) st

/-- One `execute_research_query` call of a sequential workload. -/
structure CallSpec where
  taskName : String
  timeout : Nat
  env : ExecEnv
deriving Repr, DecidableEq

/-- A finite sequence of `execute_research_query` calls, run to
completion one after the other; returns the final manager state. -/
def runCalls (st : ManagerState) (calls : List CallSpec) : ManagerState :=
  calls.foldl (fun s c => (execute_research_query s c.taskName c.timeout c.env).2) st

/-- The module-level singleton accessor `get_sandbox_manager`
(lines 265–270): the global `_sandbox_manager` cell is passed and
returned explicitly. A fresh manager is built with the default
`max_sandboxes = 5` only when the cell is empty. -/
def get_sandbox_manager (g : Option ManagerState) (api_key : Option String) :
    ManagerState × Option ManagerState :=
  match g with
  | none =>
      let m := managerInit api_key 5
      (m, some m)
  | some m => (m, some m)

/-- `init_e2b_sandboxes` (lines 273–277): delegates to
`get_sandbox_manager` and returns the manager. -/
def init_e2b_sandboxes (g : Option ManagerState) (api_key : Option String) :
    ManagerState × Option ManagerState :=
  get_sandbox_manager g api_key

end E2B

namespace E2B

/-! ### Helper lemmas about the registry dictionary and cleanup -/

theorem dictLookup_dictErase_self (l : List (String × Sandbox)) (k : String) :
    dictLookup (dictErase l k) k = none := by
  induction l with
  | nil => rfl
  | cons p rest ih =>
      rcases p with ⟨k', v⟩
      by_cases h : k' = k
      · simpa [dictErase, List.filter_cons, h] using ih
      · simpa [dictErase, List.filter_cons, h, dictLookup] using ih

theorem dictLookup_dictErase_none (l : List (String × Sandbox)) (k id : String)
    (h : dictLookup l id = none) : dictLookup (dictErase l k) id = none := by
  induction l with
  | nil => rfl
  | cons p rest ih =>
      rcases p with ⟨k', v⟩
      by_cases hkid : k' = id
      · simp [dictLookup, hkid] at h
      · by_cases hk : k' = k
        · simpa [dictErase, List.filter_cons, hk] using
            ih (by simpa [dictLookup, hkid] using h)
        · simpa [dictErase, List.filter_cons, hk, dictLookup, hkid] using
            ih (by simpa [dictLookup, hkid] using h)

theorem dictLookup_mem_keys (l : List (String × Sandbox)) (id : String)
    (h : dictLookup l id ≠ none) : id ∈ dictKeys l := by
  induction l with
  | nil => simp [dictLookup] at h
  | cons p rest ih =>
      by_cases hk : p.1 = id
      · simp [dictKeys, hk]
      · have hrest : dictLookup rest id ≠ none := by
          simpa [dictLookup, hk] using h
        simp [dictKeys]
        right
        simpa [dictKeys] using ih hrest

/-- When the remote kill succeeds, `_cleanup_sandbox` leaves no entry
for the session id, whatever the prior state was. -/
theorem cleanup_killOk_lookup (st : ManagerState) (id : String) :
    dictLookup (cleanup_sandbox st id true).active_sandboxes id = none := by
  unfold cleanup_sandbox kill_outcome
  cases hl : dictLookup st.active_sandboxes id with
  | none => simpa using hl
  | some v => simp [dictLookup_dictErase_self]

/-- `_cleanup_sandbox` never creates a registry entry. -/
theorem cleanup_preserves_none (st : ManagerState) (k : String) (b : Bool)
    (id : String) (h : dictLookup st.active_sandboxes id = none) :
    dictLookup (cleanup_sandbox st k b).active_sandboxes id = none := by
  unfold cleanup_sandbox kill_outcome
  cases hl : dictLookup st.active_sandboxes k with
  | none => simpa using h
  | some v =>
      cases b with
      | true => simpa using dictLookup_dictErase_none _ k id h
      | false => simpa using h

/-- `_cleanup_sandbox` does not touch the semaphore. -/
theorem cleanup_semaphore (st : ManagerState) (k : String) (b : Bool) :
    (cleanup_sandbox st k b).semaphore = st.semaphore := by
  unfold cleanup_sandbox kill_outcome
  cases hl : dictLookup st.active_sandboxes k with
  | none => rfl
  | some v => cases b <;> rfl

end E2B

namespace E2B

/-! ### Claim theorems: result shapes (C2, C3), no-raise (C4) -/

/-- C2: for every execution whose remote process completes before the
deadline with exit status `e`, the result returned by
`execute_research_query` has `success = (e == 0)`, `output` equal to the
captured stdout (empty string when none was captured), `exit_code = e`,
and `error` equal to the captured stderr when `e ≠ 0` and `none` when
`e = 0`. -/
theorem c2_completion_result_shape (st : ManagerState) (tn : String)
    (tmo : Nat) (sb : Sandbox) (e : Int) (out err : Option String)
    (mem : Option Nat) (el : Nat) (killOk : Bool) :
    (execute_research_query st tn tmo
        ⟨.ok sb, .inTime (.completes e out err mem el), killOk⟩).1
      = { success := e == 0
          output := out.getD ""
          error := if e ≠ 0 then err else none
          execution_time := el
          memory_used := get_memory_usage mem
          exit_code := e } := rfl

/-- C3: for every call whose wait for completion exceeds the configured
timeout, the result is exactly `success = false`,
`error = "Execution timeout after <timeout>s"` (which contains the
timeout duration), `execution_time = timeout`, `memory_used = 0`,
`exit_code = -1`, and no exception reaches the caller (the
exception-channel semantics returns `ok`). -/
theorem c3_timeout_result_shape (st : ManagerState) (tn : String)
    (tmo : Nat) (sb : Sandbox) (killOk : Bool) :
    (execute_research_query st tn tmo ⟨.ok sb, .timesOut, killOk⟩).1
        = { success := false
            output := ""
            error := some ("Execution timeout after " ++ toString tmo ++ "s")
            execution_time := tmo
            memory_used := 0
            exit_code := -1 }
      ∧ (execute_research_query_exc st tn tmo ⟨.ok sb, .timesOut, killOk⟩).isOk
          = true :=
  ⟨rfl, rfl⟩

/-- C4: for every input and every combination of failures at any
execution stage (sandbox creation, environment setup, process start,
waiting, output retrieval, cleanup), `execute_research_query` finishes
with an ordinary `SandboxResult` — the exception-channel semantics never
ends in a propagating exception. -/
theorem c4_never_raises (st : ManagerState) (tn : String) (tmo : Nat)
    (env : ExecEnv) :
    execute_research_query_exc st tn tmo env
      = .ok (execute_research_query st tn tmo env) := by
  obtain ⟨co, wo, k⟩ := env
  cases co <;> cases wo <;> rfl

/-! ### Claim theorems: registry after return (C1, C7) -/

/-- C1 counterexample: a call that completes normally but whose remote
teardown (`sandbox.kill()`) fails leaves its session id in the
active-session registry after `execute_research_query` returns, because
`del self._active_sandboxes[sandbox_id]` sits after `await
sandbox.kill()` inside the same `try`. -/
theorem c1_counterexample :
    ¬ (dictLookup (execute_research_query (managerInit none 5) "Task-1" 300
          ⟨.ok 7, .inTime (.completes 0 none none none 1), false⟩).2.active_sandboxes
        (sandboxId "Task-1") = none) := by
  decide

/-- C1 (amended): after `execute_research_query` returns, the session id
used by the call is absent from the active-session registry, provided
the remote teardown attempted during cleanup succeeds (when the session
was never registered there is nothing to tear down and the id is absent
as well); a failed kill leaves the entry in place. -/
theorem c1_amended_registry_cleared (st : ManagerState) (tn : String)
    (tmo : Nat) (env : ExecEnv) (h : env.killOk = true) :
    dictLookup (execute_research_query st tn tmo env).2.active_sandboxes
      (sandboxId tn) = none := by
  obtain ⟨co, wo, k⟩ := env
  subst h
  cases co <;> cases wo <;>
    simp [execute_research_query, execute_research_query_exc, exec_try,
      create_sandbox, handleExc, cleanup_killOk_lookup]

/-- C1 witness: the amended theorem applied at a concrete call whose
kill succeeds. -/
theorem c1_amended_witness :
    dictLookup (execute_research_query (managerInit none 5) "Task-1" 300
        ⟨.ok 7, .inTime (.completes 0 none none none 1), true⟩).2.active_sandboxes
      (sandboxId "Task-1") = none :=
  c1_amended_registry_cleared (managerInit none 5) "Task-1" 300
    ⟨.ok 7, .inTime (.completes 0 none none none 1), true⟩ rfl

/-- C7: when sandbox creation or setup fails (including the env-var
setup commands), the call returns a failed result with `exit_code = -1`
and `success = false`, and no entry for the call's session id is left in
the registry (given that the id was not already registered when the call
started). -/
theorem c7_create_failure (st : ManagerState) (tn : String) (tmo : Nat)
    (env : ExecEnv) (hf : env.co.isFailure = true)
    (h0 : dictLookup st.active_sandboxes (sandboxId tn) = none) :
    (execute_research_query st tn tmo env).1.exit_code = -1
      ∧ (execute_research_query st tn tmo env).1.success = false
      ∧ dictLookup (execute_research_query st tn tmo env).2.active_sandboxes
          (sandboxId tn) = none := by
  obtain ⟨co, wo, k⟩ := env
  cases co with
  | createFails msg =>
      refine ⟨rfl, rfl, ?_⟩
      simp only [execute_research_query, execute_research_query_exc, exec_try,
        create_sandbox, handleExc]
      exact cleanup_preserves_none _ _ _ _ h0
  | envSetupFails sb msg =>
      refine ⟨rfl, rfl, ?_⟩
      simp only [execute_research_query, execute_research_query_exc, exec_try,
        create_sandbox, handleExc]
      exact cleanup_preserves_none _ _ _ _ h0
  | ok sb => simp [CreateOutcome.isFailure] at hf

/-- C7 witness: a concrete failing creation. -/
theorem c7_witness :
    (execute_research_query (managerInit none 5) "Task-1" 300
        ⟨.createFails "quota exceeded", .inTime (.raises "x" 0), true⟩).1.exit_code = -1
      ∧ (execute_research_query (managerInit none 5) "Task-1" 300
          ⟨.createFails "quota exceeded", .inTime (.raises "x" 0), true⟩).1.success = false
      ∧ dictLookup (execute_research_query (managerInit none 5) "Task-1" 300
          ⟨.createFails "quota exceeded", .inTime (.raises "x" 0), true⟩).2.active_sandboxes
          (sandboxId "Task-1") = none :=
  c7_create_failure (managerInit none 5) "Task-1" 300
    ⟨.createFails "quota exceeded", .inTime (.raises "x" 0), true⟩ rfl rfl

/-! ### Claim theorem: process-wide singleton (C10) -/

/-- C10: after the first call, `get_sandbox_manager` ignores its
`api_key` argument and returns the instance built on the first call,
with the stored credential unchanged; `init_e2b_sandboxes` behaves the
same way. -/
theorem c10_singleton_ignores_later_key (key0 key : Option String)
    (m : ManagerState) :
    get_sandbox_manager (get_sandbox_manager none key0).2 key
        = ((get_sandbox_manager none key0).1, (get_sandbox_manager none key0).2)
      ∧ (get_sandbox_manager (get_sandbox_manager none key0).2 key).1.api_key
          = key0
      ∧ get_sandbox_manager (some m) key = (m, some m)
      ∧ init_e2b_sandboxes (some m) key = (m, some m) :=
  ⟨rfl, rfl, rfl, rfl⟩

end E2B

namespace E2B

/-! ### Semaphore conservation (C6) -/

/-- One `execute_research_query` call restores the semaphore's available
count (the `async with` pairs one acquire with one release on every exit
path). -/
theorem exec_semaphore (st : ManagerState) (tn : String) (tmo : Nat)
    (env : ExecEnv) (h : 0 < st.semaphore) :
    (execute_research_query st tn tmo env).2.semaphore = st.semaphore := by
  obtain ⟨co, wo, k⟩ := env
  cases co <;> cases wo <;>
    simp [execute_research_query, execute_research_query_exc, exec_try,
      create_sandbox, handleExc, cleanup_semaphore] <;>
    omega

/-- C6: for any finite sequence of `execute_research_query` calls with
any mix of outcomes (success, timeout, creation failure, run error, kill
failure), the semaphore's available-slot count after all calls complete
equals its value before any call began. The hypothesis `0 < semaphore`
says a slot is available when the sequential workload starts (with no
free slot the first acquire would block forever and no call would
complete). -/
theorem c6_slot_conservation (st : ManagerState) (calls : List CallSpec)
    (h : 0 < st.semaphore) :
    (runCalls st calls).semaphore = st.semaphore := by
  induction calls generalizing st with
  | nil => rfl
  | cons c cs ih =>
      have h1 := exec_semaphore st c.taskName c.timeout c.env h
      have hstep :
          runCalls st (c :: cs)
            = runCalls ((execute_research_query st c.taskName c.timeout c.env).2) cs :=
        rfl
      rw [hstep, ih ((execute_research_query st c.taskName c.timeout c.env).2)
        (by rw [h1]; exact h), h1]

/-- C6 witness: three calls — one success, one timeout, one creation
failure with a failing kill — leave the five slots of a fresh manager
intact. -/
theorem c6_witness :
    (runCalls (managerInit none 5)
        [⟨"t1", 300, ⟨.ok 1, .inTime (.completes 0 (some "ok") none none 1), true⟩⟩,
         ⟨"t2", 1, ⟨.ok 2, .timesOut, false⟩⟩,
         ⟨"t3", 300, ⟨.createFails "quota", .inTime (.raises "x" 0), true⟩⟩]).semaphore
      = 5 :=
  c6_slot_conservation (managerInit none 5)
    [⟨"t1", 300, ⟨.ok 1, .inTime (.completes 0 (some "ok") none none 1), true⟩⟩,
     ⟨"t2", 1, ⟨.ok 2, .timesOut, false⟩⟩,
     ⟨"t3", 300, ⟨.createFails "quota", .inTime (.raises "x" 0), true⟩⟩]
    (by decide)

/-! ### cleanup_all (C8) -/

/-- A fold of `_cleanup_sandbox` steps never creates a registry entry. -/
theorem fold_cleanup_preserves_none (killOk : String → Bool)
    (keys : List String) (st : ManagerState) (id : String)
    (h : dictLookup st.active_sandboxes id = none) :
    dictLookup ((keys.foldl (fun s k => cleanup_sandbox s k (killOk k))
        st).active_sandboxes) id = none := by
  induction keys generalizing st with
  | nil => exact h
  | cons k ks ih => exact ih _ (cleanup_preserves_none _ _ _ _ h)

/-- After folding `_cleanup_sandbox` over a list of keys, a session id
that either occurs among the keys (and whose own kill succeeds) or was
absent to begin with has no registry entry. -/
theorem fold_cleanup_lookup_none (killOk : String → Bool)
    (keys : List String) (st : ManagerState) (id : String)
    (h : killOk id = true)
    (hmem : id ∈ keys ∨ dictLookup st.active_sandboxes id = none) :
    dictLookup ((keys.foldl (fun s k => cleanup_sandbox s k (killOk k))
        st).active_sandboxes) id = none := by
  induction keys generalizing st with
  | nil =>
      rcases hmem with h' | h'
      · cases h'
      · exact h'
  | cons k ks ih =>
      rcases hmem with hmem | hnone
      · rcases List.mem_cons.mp hmem with rfl | hks
        · refine ih _ (Or.inr ?_)
          show dictLookup (cleanup_sandbox st id (killOk id)).active_sandboxes id
            = none
          rw [h]
          exact cleanup_killOk_lookup st id
        · exact ih _ (Or.inl hks)
      · exact ih _ (Or.inr (cleanup_preserves_none _ _ _ _ hnone))

/-- The `try/except` inside `_cleanup_sandbox` never re-raises. -/
theorem cleanup_sandbox_exc_eq (st : ManagerState) (k : String) (b : Bool) :
    cleanup_sandbox_exc st k b = .ok (cleanup_sandbox st k b) := by
  unfold cleanup_sandbox_exc cleanup_sandbox kill_outcome
  cases hl : dictLookup st.active_sandboxes k with
  | none => rfl
  | some v => cases b <;> rfl

/-- Folding the exception-channel cleanup over any keys yields `ok` of
the pure fold: no iteration can raise. -/
theorem fold_cleanup_exc_eq (killOk : String → Bool) (keys : List String)
    (st : ManagerState) :
    keys.foldlM (fun s id => cleanup_sandbox_exc s id (killOk id)) st
      = Except.ok (keys.foldl (fun s id => cleanup_sandbox s id (killOk id)) st) := by
  induction keys generalizing st with
  | nil => rfl
  | cons k ks ih =>
      rw [List.foldlM_cons, cleanup_sandbox_exc_eq]
      simpa using ih (cleanup_sandbox st k (killOk k))

/-- C8: `cleanup_all` iterates a snapshot of the registered session ids
and cleans each up individually: every session whose own remote kill
succeeds is removed from the registry even when the cleanup of other
sessions fails, and the whole iteration never raises (its
exception-channel semantics is `ok` of the pure result). -/
theorem c8_cleanup_all_resilient (st : ManagerState)
    (killOk : String → Bool) (id : String) (h : killOk id = true) :
    dictLookup (cleanup_all st killOk).active_sandboxes id = none
      ∧ cleanup_all_exc st killOk = .ok (cleanup_all st killOk) := by
  constructor
  · by_cases hm : dictLookup st.active_sandboxes id = none
    · exact fold_cleanup_lookup_none killOk _ st id h (Or.inr hm)
    · exact fold_cleanup_lookup_none killOk _ st id h
        (Or.inl (dictLookup_mem_keys _ _ hm))
  · exact fold_cleanup_exc_eq killOk _ st

/-- C8 witness: with two registered sessions where the first kill fails,
the second session is still cleaned up, and the iteration raises
nothing. -/
theorem c8_witness :
    dictLookup (cleanup_all ⟨none, 5, [("research_a", 1), ("research_b", 2)], 5⟩
        (fun s => s == "research_b")).active_sandboxes "research_b" = none
      ∧ cleanup_all_exc ⟨none, 5, [("research_a", 1), ("research_b", 2)], 5⟩
          (fun s => s == "research_b")
        = .ok (cleanup_all ⟨none, 5, [("research_a", 1), ("research_b", 2)], 5⟩
            (fun s => s == "research_b")) :=
  c8_cleanup_all_resilient ⟨none, 5, [("research_a", 1), ("research_b", 2)], 5⟩
    (fun s => s == "research_b") "research_b" (by decide)

end E2B

namespace E2B

/-! ### Session-id uniqueness (C5)

Line 61 derives the session id purely from the name of the current
asyncio task.  A task is identified by the task object itself (modelled
by `taskId`), while its name is a freely settable attribute: two
distinct concurrently running tasks may carry the same name
(`asyncio.create_task(coro, name="worker")` twice). -/

/-- A running asyncio task: the task object's identity and its name. -/
structure TaskCtx where
  taskId : Nat
  name : String
deriving Repr, DecidableEq

/-- The session id `execute_research_query` generates when running on
task `t` (line 61). -/
def sessionIdOf (t : TaskCtx) : String := sandboxId t.name

/-- C5 counterexample: two distinct concurrently active tasks that share
the explicitly set name "worker" generate the same session id, so the
ids of two concurrently active `execute_research_query` calls need not
be distinct. -/
theorem c5_counterexample :
    (⟨1, "worker"⟩ : TaskCtx) ≠ ⟨2, "worker"⟩
      ∧ sessionIdOf ⟨1, "worker"⟩ = sessionIdOf ⟨2, "worker"⟩ := by
  constructor
  · decide
  · rfl

/-- C5 (amended): the session ids of two concurrently active calls are
distinct provided the two tasks' names are distinct (which holds for
asyncio's auto-generated `Task-<n>` names, but not for explicitly set
duplicate names); the id generator is injective in the task name. -/
theorem c5_amended_distinct_names (t1 t2 : TaskCtx) (h : t1.name ≠ t2.name) :
    sessionIdOf t1 ≠ sessionIdOf t2 := by
  intro heq
  apply h
  have hd : ("research_" ++ t1.name).data = ("research_" ++ t2.name).data :=
    congrArg String.data heq
  simp only [String.data_append] at hd
  exact String.ext (List.append_cancel_left hd)

/-- C5 witness: two tasks with distinct auto-generated names get
distinct session ids. -/
theorem c5_witness :
    sessionIdOf ⟨1, "Task-1"⟩ ≠ sessionIdOf ⟨2, "Task-2"⟩ :=
  c5_amended_distinct_names ⟨1, "Task-1"⟩ ⟨2, "Task-2"⟩ (by decide)

end E2B

namespace E2B

/-! ### Bounded concurrency (C9)

An interleaving model of arbitrarily many concurrent
`execute_research_query` calls.  Each call walks through the phases the
source imposes: `async with self._semaphore` (acquire, line 60) strictly
before `_create_sandbox` (line 65), `finally: _cleanup_sandbox`
(lines 99–101) strictly before the slot release at the end of the
`async with` block.  A remote sandbox is alive from the moment
`Sandbox.create` returns until a `kill()` for it succeeds.  Two source
paths leave a sandbox alive with no call owning it any longer:
`_create_sandbox` raising after `Sandbox.create` succeeded (env-var
setup, lines 116–118, before registration at line 120), and
`sandbox.kill()` raising inside `_cleanup_sandbox` (line 179).  Such
sandboxes are counted by `orphans`. -/

/-- The phase of one `execute_research_query` call. -/
inductive Phase where
  | start
  | hasSlot
  | hasSandbox
  | cleaned
  | done
deriving DecidableEq

/-- Global state of the interleaving model: the slot cap `n`
(`max_sandboxes`), the available slots of the semaphore, the multiset of
call phases, and the number of orphaned live sandboxes. -/
structure Sys where
  n : Nat
  slotsAvail : Nat
  procs : Multiset Phase
  orphans : Nat

/-- Number of remote sandboxes currently alive: one per call holding a
created, not-yet-killed sandbox, plus the orphans. -/
def Sys.alive (s : Sys) : Nat := s.procs.count .hasSandbox + s.orphans

/-- Initial state: `k` pending calls against a fresh manager with `n`
slots. -/
def Sys.mkInit (n k : Nat) : Sys := ⟨n, n, Multiset.replicate k .start, 0⟩

/-- The interleaved small-step transitions of the controller. -/
inductive Step : Sys → Sys → Prop where
  | acquire (s : Sys) (h : Phase.start ∈ s.procs) (hs : 0 < s.slotsAvail) :
      Step s ⟨s.n, s.slotsAvail - 1,
        s.procs.erase .start + {Phase.hasSlot}, s.orphans⟩
  | createOk (s : Sys) (h : Phase.hasSlot ∈ s.procs) :
      Step s ⟨s.n, s.slotsAvail,
        s.procs.erase .hasSlot + {Phase.hasSandbox}, s.orphans⟩
  | createFail (s : Sys) (h : Phase.hasSlot ∈ s.procs) :
      Step s ⟨s.n, s.slotsAvail,
        s.procs.erase .hasSlot + {Phase.cleaned}, s.orphans⟩
  | envSetupFail (s : Sys) (h : Phase.hasSlot ∈ s.procs) :
      Step s ⟨s.n, s.slotsAvail,
        s.procs.erase .hasSlot + {Phase.cleaned}, s.orphans + 1⟩
  | cleanupOk (s : Sys) (h : Phase.hasSandbox ∈ s.procs) :
      Step s ⟨s.n, s.slotsAvail,
        s.procs.erase .hasSandbox + {Phase.cleaned}, s.orphans⟩
  | cleanupFail (s : Sys) (h : Phase.hasSandbox ∈ s.procs) :
      Step s ⟨s.n, s.slotsAvail,
        s.procs.erase .hasSandbox + {Phase.cleaned}, s.orphans + 1⟩
  | release (s : Sys) (h : Phase.cleaned ∈ s.procs) :
      Step s ⟨s.n, s.slotsAvail + 1,
        s.procs.erase .cleaned + {Phase.done}, s.orphans⟩

/-- Number of calls currently holding a semaphore slot. -/
def holding (m : Multiset Phase) : Nat :=
  m.count .hasSlot + m.count .hasSandbox + m.count .cleaned

/-- Slot bookkeeping invariant: held slots plus available slots equal
the cap. -/
def SlotInv (s : Sys) : Prop := holding s.procs + s.slotsAvail = s.n

theorem count_phase_erase (m : Multiset Phase) (q p : Phase) :
    (m.erase q).count p = if p = q then m.count p - 1 else m.count p := by
  by_cases h : p = q
  · subst h
    simp [Multiset.count_erase_self]
  · simp [h, Multiset.count_erase_of_ne h]

theorem slotInv_mkInit (n k : Nat) : SlotInv (Sys.mkInit n k) := by
  simp [SlotInv, Sys.mkInit, holding, Multiset.count_replicate]

theorem step_n {s t : Sys} (h : Step s t) : t.n = s.n := by
  cases h <;> rfl

theorem slotInv_step {s t : Sys} (hst : Step s t) (hs : SlotInv s) :
    SlotInv t := by
  cases hst with
  | acquire h hslot =>
      have hc : 1 ≤ s.procs.count .start := Multiset.one_le_count_iff_mem.mpr h
      simp only [SlotInv, holding, Multiset.count_add, Multiset.count_singleton,
        count_phase_erase] at *
      simp at *
      try omega
  | createOk h =>
      have hc : 1 ≤ s.procs.count .hasSlot := Multiset.one_le_count_iff_mem.mpr h
      simp only [SlotInv, holding, Multiset.count_add, Multiset.count_singleton,
        count_phase_erase] at *
      simp at *
      try omega
  | createFail h =>
      have hc : 1 ≤ s.procs.count .hasSlot := Multiset.one_le_count_iff_mem.mpr h
      simp only [SlotInv, holding, Multiset.count_add, Multiset.count_singleton,
        count_phase_erase] at *
      simp at *
      try omega
  | envSetupFail h =>
      have hc : 1 ≤ s.procs.count .hasSlot := Multiset.one_le_count_iff_mem.mpr h
      simp only [SlotInv, holding, Multiset.count_add, Multiset.count_singleton,
        count_phase_erase] at *
      simp at *
      try omega
  | cleanupOk h =>
      have hc : 1 ≤ s.procs.count .hasSandbox :=
        Multiset.one_le_count_iff_mem.mpr h
      simp only [SlotInv, holding, Multiset.count_add, Multiset.count_singleton,
        count_phase_erase] at *
      simp at *
      try omega
  | cleanupFail h =>
      have hc : 1 ≤ s.procs.count .hasSandbox :=
        Multiset.one_le_count_iff_mem.mpr h
      simp only [SlotInv, holding, Multiset.count_add, Multiset.count_singleton,
        count_phase_erase] at *
      simp at *
      try omega
  | release h =>
      have hc : 1 ≤ s.procs.count .cleaned := Multiset.one_le_count_iff_mem.mpr h
      simp only [SlotInv, holding, Multiset.count_add, Multiset.count_singleton,
        count_phase_erase] at *
      simp at *
      try omega

theorem slotInv_reachable {s : Sys} (n k : Nat)
    (h : Relation.ReflTransGen Step (Sys.mkInit n k) s) : SlotInv s := by
  induction h with
  | refl => exact slotInv_mkInit n k
  | tail _ hbc ih => exact slotInv_step hbc ih

theorem reach_n {s t : Sys} (h : Relation.ReflTransGen Step s t) :
    t.n = s.n := by
  induction h with
  | refl => rfl
  | tail _ hbc ih => rw [step_n hbc, ih]

/-- C9 counterexample: with `max_sandboxes = 1` and two pending calls, a
failed `sandbox.kill()` during the first call's cleanup leaves that
sandbox alive while the slot is released, so the second call creates a
second sandbox: a reachable state has two sandboxes alive although
`N = 1`. -/
theorem c9_counterexample :
    ∃ s : Sys, Relation.ReflTransGen Step (Sys.mkInit 1 2) s
      ∧ s.n = 1 ∧ 1 < Sys.alive s := by
  refine ⟨_, Relation.ReflTransGen.tail (Relation.ReflTransGen.tail
      (Relation.ReflTransGen.tail (Relation.ReflTransGen.tail
        (Relation.ReflTransGen.tail (Relation.ReflTransGen.tail
          Relation.ReflTransGen.refl
          (Step.acquire _ (by decide) (by decide)))
          (Step.createOk _ (by decide)))
          (Step.cleanupFail _ (by decide)))
          (Step.release _ (by decide)))
          (Step.acquire _ (by decide) (by decide)))
        (Step.createOk _ (by decide)), rfl, by decide⟩

/-- C9 (amended): at every instant of any interleaving, the number of
live remote sandboxes is at most `N` plus the number of leaking failures
that have occurred so far (failed teardowns and creation failures after
the remote sandbox came alive); in particular it is at most `N` whenever
no such failure has occurred.  Slot acquisition strictly preceding
creation and cleanup strictly preceding release are built into the
transition structure. -/
theorem c9_amended_bounded_alive (n k : Nat) (s : Sys)
    (h : Relation.ReflTransGen Step (Sys.mkInit n k) s) :
    Sys.alive s ≤ n + s.orphans := by
  have hinv := slotInv_reachable n k h
  have hn : s.n = n := reach_n h
  simp only [SlotInv, holding] at hinv
  simp only [Sys.alive]
  omega

/-- C9 witness: the amended bound applied at the initial state of a
pool of two slots and three pending calls. -/
theorem c9_witness :
    Sys.alive (Sys.mkInit 2 3) ≤ 2 + (Sys.mkInit 2 3).orphans :=
  c9_amended_bounded_alive 2 3 (Sys.mkInit 2 3) Relation.ReflTransGen.refl

end E2B
